import Mathlib

/-!
Formal model of the kubernetes-shell driver's deployment workflow.

The definitions below embed, in order: Python string primitives used by the
attribute and environment-variable grammars, the Python dict operations that
back label merging, the Kubernetes object model assembled by
KubernetesDeploymentService (src/kubernetes/src/domain/services/deployment.py),
the delete and wait operations of that service, and the deploy orchestration
workflow. Code of the repository that is not among the provided sources
(the deploy operation module, the tags module and the additional-data keys
module) is modelled from the specification, as marked in doc comments.
-/

/-- True for the ASCII whitespace characters stripped by Python's str.strip. -/
def isPySpace (c : Char) : Bool :=
  c = ' ' ∨ c = '\t' ∨ c = '\n' ∨ c = '\r'

/-- Drop leading whitespace characters. -/
def dropSpace : List Char → List Char
  | [] => []
  | c :: cs => if isPySpace c then dropSpace cs else c :: cs

/-- Python str.strip on a character list: removes leading and trailing
whitespace. -/
def pyStrip (cs : List Char) : List Char :=
  (dropSpace ((dropSpace cs).reverse)).reverse

/-- Python str.split with a single-character separator: splitting the empty
string yields one empty field, and every separator occurrence opens a new
field. -/
def splitChar (sep : Char) : List Char → List (List Char)
  | [] => [[]]
  | c :: cs =>
    if c = sep then [] :: splitChar sep cs
    else
      match splitChar sep cs with
      | [] => [[c]]
      | r :: rs => (c :: r) :: rs

/-- Python str.split over a string. -/
def splitStr (sep : Char) (s : String) : List String :=
  (splitChar sep s.data).map String.mk

/-- Numeric value of a decimal digit character, if it is one. -/
def digitVal (c : Char) : Option Nat :=
  if '0' ≤ c ∧ c ≤ '9' then some (c.toNat - '0'.toNat) else none

/-- Accumulate decimal digits left to right; a non-digit character fails. -/
def digitsAux : List Char → Nat → Option Nat
  | [], acc => some acc
  | c :: cs, acc =>
    match digitVal c with
    | some d => digitsAux cs (acc * 10 + d)
    | none => none

/-- Python int(...) restricted to optionally signed decimal literals with
surrounding whitespace, as used for ports and replica counts. -/
def pyInt (s : String) : Option Int :=
  match pyStrip s.data with
  | [] => none
  | '-' :: rest =>
    match rest with
    | [] => none
    | _ => (digitsAux rest 0).map (fun n => -(n : Int))
  | cs => (digitsAux cs 0).map (fun n => (n : Int))

/-- Python dict insertion: update the first binding of the key in place, or
append a fresh binding at the end. -/
def dictInsert : List (String × String) → String → String → List (String × String)
  | [], k, v => [(k, v)]
  | p :: d, k, v => if p.1 = k then (k, v) :: d else p :: dictInsert d k v

/-- Python dict lookup on the association-list model. -/
def dictLookup : List (String × String) → String → Option String
  | [], _ => none
  | p :: d, k => if p.1 = k then some p.2 else dictLookup d k

/-- Python dict.update: insert every binding of the second list, in order. -/
def dictUpdate : List (String × String) → List (String × String) → List (String × String)
  | d, [] => d
  | d, p :: u => dictUpdate (dictInsert d p.1 p.2) u

/-- Last-occurrence lookup in a raw binding list. -/
def lastLookup : List (String × String) → String → Option String
  | [], _ => none
  | p :: u, k =>
    match lastLookup u k with
    | some v => some v
    | none => if p.1 = k then some p.2 else none

/-- First-some choice on options. -/
def orElseO (a b : Option String) : Option String :=
  match a with
  | some v => some v
  | none => b

theorem dictLookup_insert (d : List (String × String)) (k v k' : String) :
    dictLookup (dictInsert d k v) k' =
      if k' = k then some v else dictLookup d k' := by
  induction d with
  | nil =>
    by_cases h : k' = k
    · subst h; simp [dictInsert, dictLookup]
    · simp [dictInsert, dictLookup, h, Ne.symm h]
  | cons p d ih =>
    by_cases hp : p.1 = k
    · by_cases hk : k' = k
      · subst hk; simp [dictInsert, dictLookup, hp]
      · have hpk : ¬ p.1 = k' := by rw [hp]; exact Ne.symm hk
        simp [dictInsert, dictLookup, hp, hk, Ne.symm hk, hpk]
    · by_cases hk : k' = k
      · subst hk; simp [dictInsert, dictLookup, hp, ih]
      · simp [dictInsert, dictLookup, hp, hk, ih]

theorem dictLookup_update (u d : List (String × String)) (k : String) :
    dictLookup (dictUpdate d u) k = orElseO (lastLookup u k) (dictLookup d k) := by
  induction u generalizing d with
  | nil => simp [dictUpdate, lastLookup, orElseO]
  | cons p u ih =>
    simp only [dictUpdate]
    rw [ih]
    simp only [lastLookup]
    cases h : lastLookup u k with
    | some v => simp [orElseO]
    | none =>
      simp only [orElseO]
      rw [dictLookup_insert]
      by_cases hp : p.1 = k
      · rw [if_pos hp, if_pos (hp.symm)]
      · rw [if_neg hp, if_neg (fun hh => hp hh.symm)]

theorem mem_keys_insert (d : List (String × String)) (k v k' : String) :
    k' ∈ (dictInsert d k v).map Prod.fst ↔ k' = k ∨ k' ∈ d.map Prod.fst := by
  induction d with
  | nil => simp [dictInsert]
  | cons p d ih =>
    by_cases hp : p.1 = k
    · rw [show dictInsert (p :: d) k v = (k, v) :: d from by simp [dictInsert, hp]]
      simp only [List.map_cons, List.mem_cons, hp]
      tauto
    · rw [show dictInsert (p :: d) k v = p :: dictInsert d k v from by
        simp [dictInsert, hp]]
      simp only [List.map_cons, List.mem_cons, ih]
      tauto

theorem mem_keys_update (u d : List (String × String)) (k' : String) :
    k' ∈ (dictUpdate d u).map Prod.fst ↔
      k' ∈ d.map Prod.fst ∨ k' ∈ u.map Prod.fst := by
  induction u generalizing d with
  | nil => simp [dictUpdate]
  | cons p u ih =>
    simp only [dictUpdate]
    rw [ih, mem_keys_insert]
    simp
    tauto

theorem dictLookup_isSome_iff (d : List (String × String)) (k : String) :
    (dictLookup d k).isSome ↔ k ∈ d.map Prod.fst := by
  induction d with
  | nil => simp [dictLookup]
  | cons p d ih =>
    by_cases hp : p.1 = k
    · simp [dictLookup, hp]
    · have : ¬ k = p.1 := fun hh => hp hh.symm
      simp [dictLookup, hp, ih, this]

namespace TagsService

/-- Modelled from the spec: the sandbox-id label key of the tags module, which
is not among the provided sources; the spec writes the label as sandboxId. -/
def SANDBOX_ID : String := "sandboxId"

/-- Modelled from the spec: the fixed name part for internal container ports
(the tags module holding the concrete constant is not among the provided
sources; the claims do not depend on its value). -/
def INTERNAL_PORT_PFX : String := "int"

/-- Modelled from the spec: the fixed name part for external container ports
(the tags module holding the concrete constant is not among the provided
sources; the claims do not depend on its value). -/
def EXTERNAL_PORT_PFX : String := "ext"

/-- Modelled from the spec: the default label selector key derived from an app
name (the tags module is not among the provided sources; the claims do not
depend on its value). -/
def get_default_selector (app_name : String) : String := app_name

end TagsService

structure ApplicationImage where
  name : String
  tag : String
deriving DecidableEq

structure AppComputeSpecResources where
  cpu : String
  ram : String
deriving DecidableEq

structure AppComputeSpecKubernetes where
  requests : AppComputeSpecResources
  limits : AppComputeSpecResources
deriving DecidableEq

/-- The requests and limits dictionary attached to a container, as built by
_prepare_app_container. -/
structure ContainerResources where
  requests_cpu : String
  requests_memory : String
  limits_cpu : String
  limits_memory : String
deriving DecidableEq

structure V1ContainerPort where
  name : String
  container_port : Int
deriving DecidableEq

structure V1Container where
  name : String
  image : String
  resources : Option ContainerResources
  command : List String
  args : List String
  ports : List V1ContainerPort
deriving DecidableEq

structure V1ObjectMeta where
  name : Option String
  labels : Option (List (String × String))
deriving DecidableEq

structure V1PodSpec where
  containers : List V1Container
deriving DecidableEq

structure V1PodTemplateSpec where
  metadata : V1ObjectMeta
  spec : V1PodSpec
deriving DecidableEq

structure AppsV1beta1DeploymentSpec where
  replicas : Int
  template : V1PodTemplateSpec
deriving DecidableEq

structure AppsV1beta1Deployment where
  metadata : V1ObjectMeta
  spec : AppsV1beta1DeploymentSpec
deriving DecidableEq

structure AppDeploymentRequest where
  name : String
  image : ApplicationImage
  compute_spec : Option AppComputeSpecKubernetes
  internal_ports : List Int
  external_ports : List Int
  replicas : Int
  start_command : String
  environment_variables : Option (List (String × String))
deriving DecidableEq

/-- KubernetesDeploymentService._prepare_app_container from
src/kubernetes/src/domain/services/deployment.py: builds the single app
container with named ports, the infinite-sleep placeholder command, the
formatted image reference, and the optional resource requests and limits. -/
def prepare_app_container (image : ApplicationImage)
    (compute_spec : Option AppComputeSpecKubernetes) (name : String)
    (internal_ports : List Int) (external_ports : List Int) : V1Container :=
  let container_ports :=
    internal_ports.map
      (fun port => V1ContainerPort.mk (TagsService.INTERNAL_PORT_PFX ++ toString port) port) ++
    external_ports.map
      (fun port => V1ContainerPort.mk (TagsService.EXTERNAL_PORT_PFX ++ toString port) port)
  let command := ["/bin/bash", "-c", "--"]
  let args := ["while true; do sleep 30; done;"]
  let full_image_name :=
    if image.tag = "latest" ∨ image.tag = "" then image.name
    else image.name ++ ":" ++ image.tag
  match compute_spec with
  | some cs =>
    { name := name, image := full_image_name,
      resources := some ⟨cs.requests.cpu, cs.requests.ram, cs.limits.cpu, cs.limits.ram⟩,
      command := command, args := args, ports := container_ports }
  | none =>
    { name := name, image := full_image_name, resources := none,
      command := command, args := args, ports := container_ports }

/-- KubernetesDeploymentService.create_app from
src/kubernetes/src/domain/services/deployment.py: assembles the deployment
body submitted to create_namespaced_deployment; the pod-template metadata
carries exactly the labels argument. -/
def create_app (name : String) (labels : List (String × String))
    (app : AppDeploymentRequest) : AppsV1beta1Deployment :=
  let meta : V1ObjectMeta := ⟨some name, none⟩
  let template_meta : V1ObjectMeta := ⟨none, some labels⟩
  let container := prepare_app_container app.image app.compute_spec app.name
    app.internal_ports app.external_ports
  let pod_spec : V1PodSpec := ⟨[container]⟩
  let app_template : V1PodTemplateSpec := ⟨template_meta, pod_spec⟩
  let app_spec : AppsV1beta1DeploymentSpec := ⟨app.replicas, app_template⟩
  ⟨meta, app_spec⟩

structure V1DeleteOptions where
  propagation_policy : String
  grace_period_seconds : Int
deriving DecidableEq

structure ApiException where
  status : Int
deriving DecidableEq

inductive LogLevel
  | debug
  | info
  | warn
  | error
deriving DecidableEq

/-- Outcome of delete_app: a normal return together with the log record it
emits, or a re-raised ApiException. -/
inductive DeleteOutcome
  | ok (level : LogLevel) (message : String)
  | raised (e : ApiException)
deriving DecidableEq

/-- KubernetesDeploymentService.delete_app from
src/kubernetes/src/domain/services/deployment.py: issues a foreground delete
with zero grace period; a 404 ApiException is downgraded to a warning log and
a normal return, every other ApiException is re-raised unchanged. The api
argument stands for clients.apps_api.delete_namespaced_deployment. -/
def delete_app (api : String → String → V1DeleteOptions → Except ApiException Unit)
    (ns : String) (app_name_to_delete : String) : DeleteOutcome :=
  let delete_options : V1DeleteOptions := ⟨"Foreground", 0⟩
  match api app_name_to_delete ns delete_options with
  | .ok _ =>
    .ok .info ("deleted deploy/" ++ app_name_to_delete ++ " from ns/" ++ ns)
  | .error e =>
    if e.status = 404 then
      .ok .warn ("not deleting nonexistent deploy/" ++ app_name_to_delete ++
        " from ns/" ++ ns)
    else .raised e

/-- Environment of the wait loop: the items each list_namespaced_deployment
call returns for a given label selector, and the clock value
time.time() - start_time observed at each deadline check. The fixed sleep
between polls is absorbed into the clock. -/
structure WaitEnv where
  listDeployments : String → Nat → List String
  elapsed : Nat → Int

/-- The label-selector query string built by wait_until_exists. -/
def query_selector (app_name : String) : String :=
  TagsService.get_default_selector app_name ++ "==" ++ app_name

inductive WaitOutcome
  | returned (iters : Nat)
  | timeoutErr (message : String)
  | outOfFuel
deriving DecidableEq

/-- KubernetesDeploymentService.wait_until_exists from
src/kubernetes/src/domain/services/deployment.py, as a fuel-indexed loop: each
iteration first lists the deployments matching the selector, returns when the
list is empty, raises TimeoutError when the deadline has elapsed at the check
following a non-empty poll, and otherwise sleeps and polls again. -/
def waitLoop (env : WaitEnv) (app_name : String) (timeout : Int) :
    Nat → Nat → WaitOutcome
  | 0, _ => .outOfFuel
  | fuel + 1, i =>
    if env.listDeployments (query_selector app_name) i = [] then
      .returned i
    else if timeout ≤ env.elapsed i then
      .timeoutErr ("Timeout: Waiting for deployment " ++ app_name ++
        " to be deleted")
    else
      waitLoop env app_name timeout fuel (i + 1)

/-- Entry point of the wait loop, starting at the first poll. -/
def wait_until_exists (env : WaitEnv) (app_name : String) (timeout : Int)
    (fuel : Nat) : WaitOutcome :=
  waitLoop env app_name timeout fuel 0

/-- Error taxonomy of the deploy workflow, per the spec: ValidationError for a
malformed or missing attribute, ParseError for a malformed environment-variable
entry, NotFoundError for an absent namespace. -/
inductive DeployError
  | validationErr (message : String)
  | parseErr (message : String)
  | notFoundErr (message : String)
deriving DecidableEq

/-- Decidable equality of Except values, for evaluating the model on concrete
inputs. -/
instance {ε : Type u} {α : Type v} [DecidableEq ε] [DecidableEq α] :
    DecidableEq (Except ε α)
  | .error e1, .error e2 =>
    if h : e1 = e2 then .isTrue (h ▸ rfl)
    else .isFalse (fun hh => h (Except.error.inj hh))
  | .error _, .ok _ => .isFalse Except.noConfusion
  | .ok _, .error _ => .isFalse Except.noConfusion
  | .ok a1, .ok a2 =>
    if h : a1 = a2 then .isTrue (h ▸ rfl)
    else .isFalse (fun hh => h (Except.ok.inj hh))

/-- Whether a segment contains the key=value separator. -/
def hasEqSep (kv : String) : Bool := kv.data.any (fun c => c == '=')

/-- Join split fields back with the separator character; used when a value
itself contains the separator. -/
def joinSep (sep : Char) : List (List Char) → List Char
  | [] => []
  | [x] => x
  | x :: y :: rest => x ++ sep :: joinSep sep (y :: rest)

/-- Modelled from the spec: one key=value segment of the environment-variable
grammar (the parsing code lives in the deploy operation module, which is not
among the provided sources). The key and the value are trimmed, the value may
be empty, and a segment without a separator fails with the message observed in
the repository's tests. -/
def parseEnvSegment (kv : String) : Except DeployError (String × String) :=
  match splitChar '=' kv.data with
  | k :: r :: rest =>
    .ok (String.mk (pyStrip k), String.mk (pyStrip (joinSep '=' (r :: rest))))
  | _ =>
    .error (.parseErr ("Cannot parse environment variable \x27" ++ kv ++
      "\x27. Expected format: key=value"))

/-- Sequence the segment parses left to right, stopping at the first failure. -/
def mapMExcept (f : String → Except DeployError (String × String)) :
    List String → Except DeployError (List (String × String))
  | [] => .ok []
  | x :: xs =>
    match f x with
    | .error e => .error e
    | .ok y =>
      match mapMExcept f xs with
      | .error e => .error e
      | .ok ys => .ok (y :: ys)

/-- Modelled from the spec: DeployOperation._get_environment_variables_dict
(the deploy operation module is not among the provided sources). A blank or
whitespace-only input yields no mapping at all; otherwise the comma-separated
segments are parsed as trimmed key=value pairs into a dict where the last
occurrence of a key wins. -/
def get_environment_variables_dict (environment_variables : String) :
    Except DeployError (Option (List (String × String))) :=
  if pyStrip environment_variables.data = [] then .ok none
  else
    match mapMExcept parseEnvSegment (splitStr ',' environment_variables) with
    | .error e => .error e
    | .ok pairs => .ok (some (dictUpdate [] pairs))

/-- Lowercase an ASCII letter. -/
def asciiLower (c : Char) : Char :=
  if 'A' ≤ c ∧ c ≤ 'Z' then Char.ofNat (c.toNat + 32) else c

/-- Modelled from the spec: conversion of the CloudShell app name to the
Kubernetes object name (the conversion code lives in the deploy operation
module, which is not among the provided sources); the repository's test maps
the app name kube app test to kube-app-test, so spaces become dashes and
letters are lowercased. -/
def kubernetes_name (appName : String) : String :=
  String.mk (appName.data.map (fun c => if c = ' ' then '-' else asciiLower c))

/-- Modelled from the spec: the string-typed deployment attributes consumed by
the attribute parser (the deploy operation module is not among the provided
sources), mirroring the attribute names exercised by the repository's tests;
the optional compute spec stands for the optional resource attributes. -/
structure DeployAttributes where
  internalPorts : String
  externalPorts : String
  replicasAttr : String
  dockerImageName : String
  dockerImageTag : String
  startCommand : String
  environmentVariables : String
  waitForReplicas : String
  computeSpec : Option AppComputeSpecKubernetes
deriving DecidableEq

/-- Modelled from the spec: the comma-separated integer list grammar of the
ports attributes (the attribute-parsing code lives in the deploy operation
module, which is not among the provided sources). -/
def parse_ports (s : String) : Option (List Int) :=
  (splitStr ',' s).mapM pyInt

/-- Modelled from the spec: create_deployment_model_from_action of the deploy
operation module (not among the provided sources): parses the port lists, the
replica count and the environment variables, and assembles the typed
AppDeploymentRequest; a missing or unparseable field fails validation. -/
def create_deployment_model_from_action (appName : String)
    (attrs : DeployAttributes) : Except DeployError AppDeploymentRequest :=
  match parse_ports attrs.internalPorts with
  | none => .error (.validationErr "Internal Ports")
  | some ip =>
    match parse_ports attrs.externalPorts with
    | none => .error (.validationErr "External Ports")
    | some ep =>
      match pyInt attrs.replicasAttr with
      | none => .error (.validationErr "Replicas")
      | some reps =>
        match get_environment_variables_dict attrs.environmentVariables with
        | .error e => .error e
        | .ok env_dict =>
          .ok { name := kubernetes_name appName,
                image := ⟨attrs.dockerImageName, attrs.dockerImageTag⟩,
                compute_spec := attrs.computeSpec,
                internal_ports := ip, external_ports := ep, replicas := reps,
                start_command := attrs.startCommand,
                environment_variables := env_dict }

/-- A created service, reduced to the label selector of its spec. -/
structure ServiceSpec where
  selector : List (String × String)
deriving DecidableEq

/-- Modelled from the spec: the collaborators the deploy operation calls out to
(namespace service lookup by sandbox id, networking service creating the
internal and external service pair, vm details provider), supplied as an
environment because only their call sites appear in the provided sources. -/
structure DeployEnv where
  get_single_by_id : String → Option String
  create_internal_external_set :
    String → String → List (String × String) → List Int → List Int →
      ServiceSpec × ServiceSpec
  create_vm_details : String → String

/-- A side-effecting cluster call recorded by the deploy workflow, in order. -/
inductive ClusterCall
  | createServices (ns : String) (name : String) (labels : List (String × String))
      (internal_ports : List Int) (external_ports : List Int)
  | createDeployment (ns : String) (body : AppsV1beta1Deployment)
deriving DecidableEq

/-- A value of the additional-data map: the repository's test stores the
namespace and the wait timeout as strings and the replica count as an int. -/
inductive AdditionalDataValue
  | str (s : String)
  | int (n : Int)
deriving DecidableEq

namespace DeployedAppAdditionalDataKeys

/-- Modelled from the spec: the additional-data key for the namespace (the
keys module is not among the provided sources; the claims do not depend on its
value). -/
def NAMESPACE : String := "namespace"

/-- Modelled from the spec: the additional-data key for the replica count. -/
def REPLICAS : String := "replicas"

/-- Modelled from the spec: the additional-data key for the wait-for-replicas
timeout. -/
def WAIT_FOR_REPLICAS_TO_BE_READY : String := "wait_for_replicas_to_be_ready"

end DeployedAppAdditionalDataKeys

/-- Modelled from the spec: the DeploymentResult contract returned to the host
(the result assembly code lives in the deploy operation module, which is not
among the provided sources), with the fields asserted by the repository's
tests. -/
structure DeploymentResult where
  success : Bool
  vmName : String
  vmUuid : String
  deployedAppAddress : String
  deployedAppAdditionalData : List (String × AdditionalDataValue)
  vmDetailsData : String
deriving DecidableEq

/-- Modelled from the spec: DeployOperation.deploy_app of the deploy operation
module (not among the provided sources): parse the attributes, resolve the
namespace by sandbox id failing fast when absent, provision the internal and
external services, merge the sandbox-id label with both selectors, submit the
deployment body built by create_app, and assemble the DeploymentResult. The
first component records the side-effecting cluster calls in order. -/
def deploy_app (env : DeployEnv) (sandbox_id : String) (appName : String)
    (attrs : DeployAttributes) :
    List ClusterCall × Except DeployError DeploymentResult :=
  match create_deployment_model_from_action appName attrs with
  | .error e => ([], .error e)
  | .ok app =>
    match env.get_single_by_id sandbox_id with
    | none =>
      ([], .error (.notFoundErr ("Namespace for sandbox \x27" ++ sandbox_id ++
        "\x27 not found")))
    | some ns =>
      let kname := kubernetes_name appName
      let base := [(TagsService.SANDBOX_ID, sandbox_id)]
      let svcs := env.create_internal_external_set ns kname base
        app.internal_ports app.external_ports
      let labels := dictUpdate (dictUpdate base svcs.1.selector) svcs.2.selector
      ([ClusterCall.createServices ns kname base app.internal_ports app.external_ports,
        ClusterCall.createDeployment ns (create_app kname labels app)],
       .ok { success := true, vmName := appName, vmUuid := kname,
             deployedAppAddress := kname,
             deployedAppAdditionalData :=
               [(DeployedAppAdditionalDataKeys.NAMESPACE, .str ns),
                (DeployedAppAdditionalDataKeys.REPLICAS, .int app.replicas),
                (DeployedAppAdditionalDataKeys.WAIT_FOR_REPLICAS_TO_BE_READY,
                  .str attrs.waitForReplicas)],
             vmDetailsData := env.create_vm_details kname })

example : pyStrip "  env1  ".data = "env1".data := by decide

example : splitStr ',' "a, b" = ["a", " b"] := by decide

example : pyInt " 22 " = some 22 := by decide

example : dictUpdate [("a", "1")] [("b", "2"), ("a", "3")] =
    [("a", "3"), ("b", "2")] := by decide

example : (prepare_app_container ⟨"Ubuntu", "16.04"⟩ none "app" [22] [80]).image =
    "Ubuntu:16.04" := by decide

example : kubernetes_name "kube app test" = "kube-app-test" := by decide

example : create_deployment_model_from_action "kube app test"
    ⟨"5589, 5560, 22", "80, 443", "3", "Ubuntu", "16.04", "do stuff", "k1=v1", "120", none⟩ =
    .ok ⟨"kube-app-test", ⟨"Ubuntu", "16.04"⟩, none, [5589, 5560, 22], [80, 443], 3,
      "do stuff", some [("k1", "v1")]⟩ := by
  decide

theorem waitLoop_skip (env : WaitEnv) (a : String) (t : Int) :
    ∀ (i k fuel : Nat),
      (∀ j, j < i →
        env.listDeployments (query_selector a) (k + j) ≠ [] ∧
          env.elapsed (k + j) < t) →
      waitLoop env a t (fuel + i) k = waitLoop env a t fuel (k + i) := by
  intro i
  induction i with
  | zero => intro k fuel _; rfl
  | succ n ih =>
    intro k fuel h
    have h0 := h 0 (Nat.succ_pos n)
    rw [Nat.add_zero] at h0
    have hstep : waitLoop env a t (fuel + (n + 1)) k =
        waitLoop env a t (fuel + n) (k + 1) := by
      show waitLoop env a t ((fuel + n) + 1) k = _
      simp only [waitLoop]
      rw [if_neg h0.1, if_neg (not_le.mpr h0.2)]
    rw [hstep]
    have hshift : ∀ j, j < n →
        env.listDeployments (query_selector a) ((k + 1) + j) ≠ [] ∧
          env.elapsed ((k + 1) + j) < t := by
      intro j hj
      have e : k + (j + 1) = (k + 1) + j := by omega
      have := h (j + 1) (Nat.succ_lt_succ hj)
      rwa [e] at this
    rw [ih (k + 1) fuel hshift]
    have e2 : (k + 1) + n = k + (n + 1) := by omega
    rw [e2]

theorem waitLoop_timeout_poll (env : WaitEnv) (a : String) (t : Int) :
    ∀ (fuel k : Nat) (msg : String),
      waitLoop env a t fuel k = .timeoutErr msg →
      ∃ i, env.listDeployments (query_selector a) i ≠ [] ∧ t ≤ env.elapsed i := by
  intro fuel
  induction fuel with
  | zero => intro k msg h; exact absurd h (by simp [waitLoop])
  | succ n ih =>
    intro k msg h
    simp only [waitLoop] at h
    by_cases h1 : env.listDeployments (query_selector a) k = []
    · rw [if_pos h1] at h; exact absurd h (by simp)
    · rw [if_neg h1] at h
      by_cases h2 : t ≤ env.elapsed k
      · exact ⟨k, h1, h2⟩
      · rw [if_neg h2] at h
        exact ih (k + 1) msg h

/-- C4: wait_until_exists returns normally at the first poll that finds zero
matching deployments for the selector derived from the app name (it waits for
absence), and raises the TimeoutError once the deadline has elapsed while
matching deployments still exist. -/
theorem wait_until_exists_spec (env : WaitEnv) (a : String) (t : Int)
    (fuel i : Nat) (hfuel : i < fuel)
    (hbusy : ∀ j, j < i →
      env.listDeployments (query_selector a) j ≠ [] ∧ env.elapsed j < t) :
    (env.listDeployments (query_selector a) i = [] →
      wait_until_exists env a t fuel = .returned i) ∧
    (env.listDeployments (query_selector a) i ≠ [] → t ≤ env.elapsed i →
      wait_until_exists env a t fuel = .timeoutErr
        ("Timeout: Waiting for deployment " ++ a ++ " to be deleted")) := by
  have hsplit : fuel = (fuel - i) + i := by omega
  have hskip := waitLoop_skip env a t i 0 (fuel - i) (fun j hj => by
    have := hbusy j hj
    simpa using this)
  obtain ⟨m, hm⟩ : ∃ m, fuel - i = m + 1 := ⟨fuel - i - 1, by omega⟩
  have hred : wait_until_exists env a t fuel = waitLoop env a t (m + 1) i := by
    unfold wait_until_exists
    conv_lhs => rw [hsplit]
    rw [hskip]
    simp only [Nat.zero_add]
    rw [hm]
  constructor
  · intro hempty
    rw [hred]
    simp only [waitLoop]
    rw [if_pos hempty]
  · intro hne hle
    rw [hred]
    simp only [waitLoop]
    rw [if_neg hne, if_pos hle]

/-- Witness for C4 at a concrete schedule: the deployment is present at the
first poll and gone at the second, so the wait returns at iteration 1. -/
theorem wait_until_exists_spec_witness :
    wait_until_exists ⟨fun _ i => if i = 0 then ["d"] else [], fun _ => 0⟩
      "app" 5 3 = .returned 1 :=
  (wait_until_exists_spec ⟨fun _ i => if i = 0 then ["d"] else [], fun _ => 0⟩
    "app" 5 3 1 (by omega)
    (fun j hj => by
      interval_cases j
      exact ⟨by decide, by decide⟩)).1 (by decide)

/-- C10: the loop polls before it checks the deadline, so an empty first poll
returns normally even for a timeout that is zero, negative or already elapsed,
and a TimeoutError arises only at an iteration whose poll found matching
deployments. -/
theorem wait_until_exists_polls_first (env : WaitEnv) (a : String) (t : Int)
    (fuel : Nat) (hfuel : 1 ≤ fuel) :
    (env.listDeployments (query_selector a) 0 = [] →
      wait_until_exists env a t fuel = .returned 0) ∧
    (∀ msg, wait_until_exists env a t fuel = .timeoutErr msg →
      ∃ i, env.listDeployments (query_selector a) i ≠ [] ∧ t ≤ env.elapsed i) := by
  obtain ⟨m, rfl⟩ : ∃ m, fuel = m + 1 := ⟨fuel - 1, by omega⟩
  constructor
  · intro h0
    unfold wait_until_exists
    simp only [waitLoop]
    rw [if_pos h0]
  · intro msg h
    exact waitLoop_timeout_poll env a t (m + 1) 0 msg h

/-- Witness for C10: with an empty first poll and a negative timeout the wait
still returns normally at iteration 0. -/
theorem wait_until_exists_polls_first_witness :
    wait_until_exists ⟨fun _ _ => [], fun _ => 100⟩ "app" (-1) 1 = .returned 0 :=
  (wait_until_exists_polls_first ⟨fun _ _ => [], fun _ => 100⟩ "app" (-1) 1
    (by omega)).1 rfl

/-- C3: for every namespace and app name, delete_app treats a 404 ApiException
from the delete call as success and only logs a warning, and re-raises every
ApiException whose status is not 404 unchanged, so deleting an already-absent
deployment is idempotent. -/
theorem delete_app_404_idempotent
    (api : String → String → V1DeleteOptions → Except ApiException Unit)
    (ns app_name : String) (e : ApiException)
    (herr : api app_name ns ⟨"Foreground", 0⟩ = .error e) :
    (e.status = 404 →
      delete_app api ns app_name =
        .ok .warn ("not deleting nonexistent deploy/" ++ app_name ++
          " from ns/" ++ ns)) ∧
    (e.status ≠ 404 → delete_app api ns app_name = .raised e) := by
  constructor
  · intro h404
    simp [delete_app, herr, h404]
  · intro hother
    simp [delete_app, herr, hother]

/-- Witness for C3: a 404 from the api is a warning-logged success, a 500 is
re-raised. -/
theorem delete_app_404_idempotent_witness :
    delete_app (fun _ _ _ => .error ⟨404⟩) "ns1" "app1" =
      .ok .warn "not deleting nonexistent deploy/app1 from ns/ns1" ∧
    delete_app (fun _ _ _ => .error ⟨500⟩) "ns1" "app1" = .raised ⟨500⟩ := by
  constructor
  · exact (delete_app_404_idempotent (fun _ _ _ => .error ⟨404⟩) "ns1" "app1"
      ⟨404⟩ rfl).1 rfl
  · exact (delete_app_404_idempotent (fun _ _ _ => .error ⟨500⟩) "ns1" "app1"
      ⟨500⟩ rfl).2 (by decide)

/-- C5: the container image reference is the bare image name when the tag is
empty or latest, and name:tag for every other tag. -/
theorem image_reference_format (image : ApplicationImage)
    (cs : Option AppComputeSpecKubernetes) (n : String)
    (ip ep : List Int) :
    ((image.tag = "" ∨ image.tag = "latest") →
      (prepare_app_container image cs n ip ep).image = image.name) ∧
    (image.tag ≠ "" → image.tag ≠ "latest" →
      (prepare_app_container image cs n ip ep).image =
        image.name ++ ":" ++ image.tag) := by
  constructor
  · rintro (h | h) <;> cases cs <;> simp [prepare_app_container, h]
  · intro h1 h2
    cases cs <;> simp [prepare_app_container, h1, h2]

/-- Witness for C5 on the test's image: tag latest gives the bare name, tag
16.04 gives a colon-joined reference. -/
theorem image_reference_format_witness :
    (prepare_app_container ⟨"Ubuntu", "latest"⟩ none "app" [] []).image = "Ubuntu" ∧
    (prepare_app_container ⟨"Ubuntu", "16.04"⟩ none "app" [] []).image = "Ubuntu:16.04" := by
  constructor
  · exact (image_reference_format ⟨"Ubuntu", "latest"⟩ none "app" [] []).1 (Or.inr rfl)
  · exact (image_reference_format ⟨"Ubuntu", "16.04"⟩ none "app" [] []).2
      (by decide) (by decide)

theorem splitChar_ne_nil (sep : Char) (cs : List Char) : splitChar sep cs ≠ [] := by
  cases cs with
  | nil => simp [splitChar]
  | cons c cs =>
    simp only [splitChar]
    by_cases h : c = sep
    · rw [if_pos h]; simp
    · rw [if_neg h]
      cases splitChar sep cs <;> simp

theorem splitChar_no_sep (sep : Char) (cs : List Char)
    (h : cs.any (fun c => c == sep) = false) : splitChar sep cs = [cs] := by
  induction cs with
  | nil => rfl
  | cons c cs ih =>
    simp only [List.any_cons, Bool.or_eq_false_iff] at h
    have hc : ¬ c = sep := by simpa using h.1
    simp only [splitChar, if_neg hc, ih h.2]

theorem splitChar_has_sep (sep : Char) (cs : List Char)
    (h : cs.any (fun c => c == sep) = true) :
    ∃ a b rest, splitChar sep cs = a :: b :: rest := by
  induction cs with
  | nil => simp at h
  | cons c cs ih =>
    by_cases hc : c = sep
    · cases hsc : splitChar sep cs with
      | nil => exact absurd hsc (splitChar_ne_nil sep cs)
      | cons r rs =>
        exact ⟨[], r, rs, by simp [splitChar, if_pos hc, hsc]⟩
    · have hcs : cs.any (fun c => c == sep) = true := by
        simp only [List.any_cons, Bool.or_eq_true] at h
        rcases h with h | h
        · exact absurd (by simpa using h) hc
        · exact h
      obtain ⟨a, b, rest, hab⟩ := ih hcs
      exact ⟨c :: a, b, rest, by simp [splitChar, if_neg hc, hab]⟩

theorem parseEnvSegment_no_sep (kv : String) (h : hasEqSep kv = false) :
    parseEnvSegment kv = .error (.parseErr
      ("Cannot parse environment variable \x27" ++ kv ++
        "\x27. Expected format: key=value")) := by
  unfold hasEqSep at h
  unfold parseEnvSegment
  rw [splitChar_no_sep '=' kv.data h]

theorem parseEnvSegment_with_sep (kv : String) (h : hasEqSep kv = true) :
    ∃ p, parseEnvSegment kv = .ok p := by
  unfold hasEqSep at h
  obtain ⟨a, b, rest, hab⟩ := splitChar_has_sep '=' kv.data h
  exact ⟨_, by unfold parseEnvSegment; rw [hab]⟩

theorem mapMExcept_first_bad (segs : List String) (seg : String)
    (hfind : segs.find? (fun kv => ! hasEqSep kv) = some seg) :
    mapMExcept parseEnvSegment segs = .error (.parseErr
      ("Cannot parse environment variable \x27" ++ seg ++
        "\x27. Expected format: key=value")) := by
  induction segs with
  | nil => simp [List.find?] at hfind
  | cons kv rest ih =>
    by_cases hkv : hasEqSep kv = false
    · simp only [List.find?, hkv, Bool.not_false, Option.some.injEq] at hfind
      subst hfind
      simp only [mapMExcept, parseEnvSegment_no_sep kv hkv]
    · have hkv' : hasEqSep kv = true := by
        cases hh : hasEqSep kv
        · exact absurd hh hkv
        · rfl
      simp only [List.find?, hkv', Bool.not_true] at hfind
      obtain ⟨p, hp⟩ := parseEnvSegment_with_sep kv hkv'
      simp only [mapMExcept, hp, ih hfind]

/-- C6: parsing the documented multi-entry environment-variable string yields
exactly the four trimmed pairs, the last with an empty value. -/
theorem env_vars_multi_example :
    get_environment_variables_dict "env1=val1, env2 =val2 , env3 = val3, env4=" =
      .ok (some [("env1", "val1"), ("env2", "val2"), ("env3", "val3"), ("env4", "")]) := by
  decide

/-- C7 counterexample: the whitespace-only input consists of a single
comma-separated segment without the key=value separator, yet parsing yields
the absent mapping and no error at all. -/
theorem env_vars_blank_segment_no_error :
    hasEqSep " " = false ∧ " " ∈ splitStr ',' " " ∧
    get_environment_variables_dict " " = .ok none ∧
    ∀ e, get_environment_variables_dict " " ≠ .error e := by
  have hval : get_environment_variables_dict " " = .ok none := by decide
  refine ⟨by decide, by decide, hval, ?_⟩
  intro e h
  rw [hval] at h
  exact Except.noConfusion h

/-- C7 (amended): on input that is not blank or whitespace-only, a
comma-separated segment without the key=value separator makes parsing fail
with a ParseError whose message cites the first such segment verbatim. -/
theorem env_vars_parse_error (s seg : String)
    (hs : pyStrip s.data ≠ [])
    (hseg : (splitStr ',' s).find? (fun kv => ! hasEqSep kv) = some seg) :
    get_environment_variables_dict s = .error (.parseErr
      ("Cannot parse environment variable \x27" ++ seg ++
        "\x27. Expected format: key=value")) := by
  unfold get_environment_variables_dict
  rw [if_neg hs, mapMExcept_first_bad (splitStr ',' s) seg hseg]

/-- Witness for the amended C7 on the test's input, whose only segment has a
colon instead of the separator. -/
theorem env_vars_parse_error_witness :
    get_environment_variables_dict "env1 : val1" = .error (.parseErr
      "Cannot parse environment variable \x27env1 : val1\x27. Expected format: key=value") :=
  env_vars_parse_error "env1 : val1" "env1 : val1" (by decide) (by decide)

/-- C8: a blank or whitespace-only input yields the absent mapping. -/
theorem env_vars_blank (s : String) (h : pyStrip s.data = []) :
    get_environment_variables_dict s = .ok none := by
  unfold get_environment_variables_dict
  rw [if_pos h]

/-- Witness for C8: the empty and the all-space strings both yield the absent
mapping, which differs from an empty mapping. -/
theorem env_vars_blank_witness :
    get_environment_variables_dict " " = .ok none ∧
    get_environment_variables_dict "" = .ok none ∧
    get_environment_variables_dict " " ≠ .ok (some []) := by
  refine ⟨env_vars_blank " " (by decide), env_vars_blank "" (by decide), by decide⟩

/-- C1: on a successful deploy, the labels handed to create_app, which become
the pod-template labels of the created deployment body, are exactly the dict
union of the sandbox-id label with the internal and then the external service
selectors: a key is present iff it comes from one of the three sources, and
its value follows dict-update precedence. -/
theorem deploy_labels_union (env : DeployEnv) (sid appName : String)
    (attrs : DeployAttributes) (req : AppDeploymentRequest) (ns : String)
    (intSel extSel : List (String × String))
    (hreq : create_deployment_model_from_action appName attrs = .ok req)
    (hns : env.get_single_by_id sid = some ns)
    (hsvc : env.create_internal_external_set ns (kubernetes_name appName)
        [(TagsService.SANDBOX_ID, sid)] req.internal_ports req.external_ports =
      (⟨intSel⟩, ⟨extSel⟩)) :
    (deploy_app env sid appName attrs).1 =
      [ClusterCall.createServices ns (kubernetes_name appName)
          [(TagsService.SANDBOX_ID, sid)] req.internal_ports req.external_ports,
        ClusterCall.createDeployment ns
          (create_app (kubernetes_name appName)
            (dictUpdate (dictUpdate [(TagsService.SANDBOX_ID, sid)] intSel) extSel)
            req)] ∧
    (create_app (kubernetes_name appName)
        (dictUpdate (dictUpdate [(TagsService.SANDBOX_ID, sid)] intSel) extSel)
        req).spec.template.metadata.labels =
      some (dictUpdate (dictUpdate [(TagsService.SANDBOX_ID, sid)] intSel) extSel) ∧
    (∀ k, (dictLookup
        (dictUpdate (dictUpdate [(TagsService.SANDBOX_ID, sid)] intSel) extSel) k).isSome ↔
      (k = TagsService.SANDBOX_ID ∨ k ∈ intSel.map Prod.fst ∨ k ∈ extSel.map Prod.fst)) ∧
    (∀ k, dictLookup
        (dictUpdate (dictUpdate [(TagsService.SANDBOX_ID, sid)] intSel) extSel) k =
      orElseO (lastLookup extSel k) (orElseO (lastLookup intSel k)
        (dictLookup [(TagsService.SANDBOX_ID, sid)] k))) := by
  refine ⟨?_, rfl, ?_, ?_⟩
  · simp only [deploy_app, hreq, hns, hsvc]
  · intro k
    rw [dictLookup_isSome_iff, mem_keys_update, mem_keys_update]
    simp only [List.map_cons, List.map_nil, List.mem_singleton]
    tauto
  · intro k
    rw [dictLookup_update, dictLookup_update]

/-- The deploy environment of the repository's basic-flow test: namespace
ns-S1, and internal and external services with one selector entry each. -/
def envBasic : DeployEnv :=
  ⟨fun _ => some "ns-S1",
   fun _ _ _ _ _ =>
     (⟨[("selector_key", "selector_value")]⟩,
      ⟨[("external_selector_key", "external_selector_value")]⟩),
   fun _ => "vm-details"⟩

/-- The deploy attributes of the repository's basic-flow test. -/
def attrsBasic : DeployAttributes :=
  ⟨"5589, 5560, 22", "80, 443", "3", "Ubuntu", "16.04", "do stuff", "k1=v1",
    "120", none⟩

/-- The parsed deployment request of the repository's basic-flow test. -/
def reqBasic : AppDeploymentRequest :=
  ⟨"kube-app-test", ⟨"Ubuntu", "16.04"⟩, none, [5589, 5560, 22], [80, 443], 3,
    "do stuff", some [("k1", "v1")]⟩

/-- Witness for C1 on the basic-flow test data: the recorded cluster calls
carry the sandbox-id label for the services and the merged union for the
deployment. -/
theorem deploy_labels_union_witness :
    (deploy_app envBasic "S1" "kube app test" attrsBasic).1 =
      [ClusterCall.createServices "ns-S1" (kubernetes_name "kube app test")
          [(TagsService.SANDBOX_ID, "S1")] reqBasic.internal_ports reqBasic.external_ports,
        ClusterCall.createDeployment "ns-S1"
          (create_app (kubernetes_name "kube app test")
            (dictUpdate (dictUpdate [(TagsService.SANDBOX_ID, "S1")]
              [("selector_key", "selector_value")])
              [("external_selector_key", "external_selector_value")])
            reqBasic)] :=
  (deploy_labels_union envBasic "S1" "kube app test" attrsBasic reqBasic "ns-S1"
    [("selector_key", "selector_value")]
    [("external_selector_key", "external_selector_value")]
    (by decide) rfl rfl).1

/-- C2: when no namespace matches the sandbox id, deploy_app records no
side-effecting cluster call at all, and on an otherwise well-formed request it
fails with the NotFoundError message naming the sandbox. -/
theorem deploy_no_namespace (env : DeployEnv) (sid appName : String)
    (attrs : DeployAttributes)
    (hns : env.get_single_by_id sid = none) :
    (deploy_app env sid appName attrs).1 = [] ∧
    (∀ req, create_deployment_model_from_action appName attrs = .ok req →
      (deploy_app env sid appName attrs).2 =
        .error (.notFoundErr ("Namespace for sandbox \x27" ++ sid ++
          "\x27 not found"))) := by
  constructor
  · cases h : create_deployment_model_from_action appName attrs with
    | error e => simp [deploy_app, h]
    | ok req => simp [deploy_app, h, hns]
  · intro req hreq
    simp [deploy_app, hreq, hns]

/-- The deploy environment whose namespace lookup finds nothing. -/
def envNoNs : DeployEnv :=
  ⟨fun _ => none, fun _ _ _ _ _ => (⟨[]⟩, ⟨[]⟩), fun _ => ""⟩

/-- Witness for C2: with an absent namespace the trace is empty and the
NotFoundError message names the sandbox id. -/
theorem deploy_no_namespace_witness :
    (deploy_app envNoNs "S1" "kube app test" attrsBasic).1 = [] ∧
    (deploy_app envNoNs "S1" "kube app test" attrsBasic).2 =
      .error (.notFoundErr "Namespace for sandbox \x27S1\x27 not found") := by
  have h := deploy_no_namespace envNoNs "S1" "kube app test" attrsBasic rfl
  exact ⟨h.1, h.2 reqBasic (by decide)⟩

/-- C9: a deploy that completes without an error yields a result with success
true, the requested app name as vmName, and an additional-data map holding
exactly the namespace, the parsed replica count and the raw wait-for-replicas
timeout under their three keys. -/
theorem deploy_result_assembly (env : DeployEnv) (sid appName : String)
    (attrs : DeployAttributes) (req : AppDeploymentRequest) (ns : String)
    (hreq : create_deployment_model_from_action appName attrs = .ok req)
    (hns : env.get_single_by_id sid = some ns) :
    ∃ r, (deploy_app env sid appName attrs).2 = .ok r ∧
      r.success = true ∧ r.vmName = appName ∧
      r.deployedAppAdditionalData =
        [(DeployedAppAdditionalDataKeys.NAMESPACE, AdditionalDataValue.str ns),
         (DeployedAppAdditionalDataKeys.REPLICAS, AdditionalDataValue.int req.replicas),
         (DeployedAppAdditionalDataKeys.WAIT_FOR_REPLICAS_TO_BE_READY,
           AdditionalDataValue.str attrs.waitForReplicas)] := by
  have h2 : (deploy_app env sid appName attrs).2 = .ok
      { success := true, vmName := appName, vmUuid := kubernetes_name appName,
        deployedAppAddress := kubernetes_name appName,
        deployedAppAdditionalData :=
          [(DeployedAppAdditionalDataKeys.NAMESPACE, AdditionalDataValue.str ns),
           (DeployedAppAdditionalDataKeys.REPLICAS, AdditionalDataValue.int req.replicas),
           (DeployedAppAdditionalDataKeys.WAIT_FOR_REPLICAS_TO_BE_READY,
             AdditionalDataValue.str attrs.waitForReplicas)],
        vmDetailsData := env.create_vm_details (kubernetes_name appName) } := by
    simp only [deploy_app, hreq, hns]
  exact ⟨_, h2, rfl, rfl, rfl⟩

/-- Witness for C9 on the basic-flow test data, matching the asserted
DeploymentResult fields. -/
theorem deploy_result_assembly_witness :
    ∃ r, (deploy_app envBasic "S1" "kube app test" attrsBasic).2 = .ok r ∧
      r.success = true ∧ r.vmName = "kube app test" ∧
      r.deployedAppAdditionalData =
        [(DeployedAppAdditionalDataKeys.NAMESPACE, AdditionalDataValue.str "ns-S1"),
         (DeployedAppAdditionalDataKeys.REPLICAS, AdditionalDataValue.int 3),
         (DeployedAppAdditionalDataKeys.WAIT_FOR_REPLICAS_TO_BE_READY,
           AdditionalDataValue.str "120")] :=
  deploy_result_assembly envBasic "S1" "kube app test" attrsBasic reqBasic
    "ns-S1" (by decide) rfl
